import Mathlib

/-!
Shallow embedding of `ado-server.py`, the credential-injecting reverse proxy
of the ado-tools repository, together with theorems settling the frozen
claims about it.

The embedding models the three proxy route handlers
(`handle_avatar_proxy`, `handle_identity_resolve_proxy`,
`handle_identity_search_proxy`), the POST dispatcher (`do_POST`), the
`end_headers` override and the `log_message`/`log_request` plumbing.
The upstream network is a parameter (an oracle from the constructed
upstream request to its outcome), so that "no upstream call" and the
error-mapping tiers are directly statable.  Library calls made by the
Python code (`base64.b64encode`, `str.encode`, `urllib.parse.quote`,
`str.rstrip`, `in` substring test, `int(...)`, `bytes.decode(..., errors
set to replace)`) are embedded as executable Lean functions below.
-/

namespace AdoServer

/-! ### Byte-level library functions used by the source -/

/-- UTF-8 encoding of a single Unicode code point, as a list of byte values.
Embeds the encoding used by Python's `str.encode()` (default UTF-8). -/
def utf8EncodeChar (n : Nat) : List Nat :=
  if n < 0x80 then [n]
  else if n < 0x800 then [0xC0 + n / 64, 0x80 + n % 64]
  else if n < 0x10000 then [0xE0 + n / 4096, 0x80 + (n / 64) % 64, 0x80 + n % 64]
  else [0xF0 + n / 262144, 0x80 + (n / 4096) % 64, 0x80 + (n / 64) % 64, 0x80 + n % 64]

/-- The UTF-8 bytes of a string: Python's `s.encode()`. -/
def strBytes (s : String) : List Nat :=
  (s.data.map (fun c => utf8EncodeChar c.toNat)).flatten

/-- The standard base64 alphabet, indexed 0..63. -/
def b64Char (n : Nat) : Char :=
  "ABCDEFGHIJKLMNOPQRSTUVWXYZabcdefghijklmnopqrstuvwxyz0123456789+/".data.getD n 'A'

/-- Base64-encode a byte list three bytes at a time with `=` padding:
the algorithm of Python's `base64.b64encode`. -/
def b64Aux : List Nat → List Char
  | [] => []
  | [b1] => [b64Char (b1 / 4), b64Char (b1 % 4 * 16), '=', '=']
  | [b1, b2] => [b64Char (b1 / 4), b64Char (b1 % 4 * 16 + b2 / 16), b64Char (b2 % 16 * 4), '=']
  | b1 :: b2 :: b3 :: rest =>
    b64Char (b1 / 4) :: b64Char (b1 % 4 * 16 + b2 / 16) ::
      b64Char (b2 % 16 * 4 + b3 / 64) :: b64Char (b3 % 64) :: b64Aux rest

/-- Embeds `base64.b64encode(bs).decode()` (the result is ASCII). -/
def b64EncodeBytes (bs : List Nat) : String :=
  String.mk (b64Aux bs)

/-- Uppercase hexadecimal digit, as used by `urllib.parse.quote`. -/
def hexUpper (n : Nat) : Char :=
  "0123456789ABCDEF".data.getD n '0'

/-- The bytes `urllib.parse.quote` never encodes (its `ALWAYS_SAFE` set):
ASCII letters, digits, and the four marks underscore dot hyphen tilde. -/
def alwaysSafeByte (b : Nat) : Bool :=
  (65 ≤ b && b ≤ 90) || (97 ≤ b && b ≤ 122) || (48 ≤ b && b ≤ 57) ||
    b == 95 || b == 46 || b == 45 || b == 126

/-- Percent-encode one byte unless it is always-safe. -/
def quoteByte (b : Nat) : List Char :=
  if alwaysSafeByte b then [Char.ofNat b]
  else ['%', hexUpper (b / 16), hexUpper (b % 16)]

/-- Embeds `urllib.parse.quote(s, safe set to the empty string)`:
UTF-8 encode, then percent-encode every byte outside `ALWAYS_SAFE`
(in particular the slash is encoded). -/
def pyQuoteNoSafe (s : String) : String :=
  String.mk (((strBytes s).map quoteByte).flatten)

/-- Embeds Python `s.rstrip('/')`: drop every trailing slash. -/
def rstripSlash (s : String) : String :=
  String.mk ((s.data.reverse.dropWhile (fun c => c == '/')).reverse)

/-- Substring test on character lists: `pat` occurs contiguously in `l`. -/
def subList (pat : List Char) : List Char → Bool
  | [] => pat.isEmpty
  | c :: rest => pat.isPrefixOf (c :: rest) || subList pat rest

/-- Embeds the Python substring test `pat in hay` on strings. -/
def strContains (hay pat : String) : Bool :=
  subList pat.data hay.data

/-- Python truthiness of an `Optional[str]`: `None` and the empty string
are falsy, every other string is truthy. -/
def pyFalsy : Option String → Bool
  | none => true
  | some s => s == ""

/-- Python whitespace characters stripped by `int(str)`. -/
def isPySpace (c : Char) : Bool :=
  c == ' ' || c == '\t' || c == '\n' || c == '\r' ||
    c == Char.ofNat 11 || c == Char.ofNat 12

/-- Strip leading and trailing Python whitespace. -/
def stripPySpaces (l : List Char) : List Char :=
  ((l.dropWhile isPySpace).reverse.dropWhile isPySpace).reverse

/-- Digit run of a Python integer literal after its first digit: ASCII
digits, with a single underscore allowed between two digits. -/
def pyDigitsAux : List Char → Nat → Option Nat
  | [], acc => some acc
  | '_' :: d :: rest, acc =>
    if d.isDigit then pyDigitsAux rest (acc * 10 + (d.toNat - 48)) else none
  | ['_'], _ => none
  | c :: rest, acc =>
    if c.isDigit then pyDigitsAux rest (acc * 10 + (c.toNat - 48)) else none

/-- A nonempty digit run must start with a digit. -/
def pyDigitsStart : List Char → Option Nat
  | [] => none
  | c :: rest => if c.isDigit then pyDigitsAux rest (c.toNat - 48) else none

/-- Embeds Python `int(s)` on decimal strings: strip whitespace, optional
sign, ASCII digits with single interior underscores; `none` models the
`ValueError` that `int` raises on every other input. -/
def pyIntParse (s : String) : Option Int :=
  match stripPySpaces s.data with
  | '+' :: rest => (pyDigitsStart rest).map Int.ofNat
  | '-' :: rest => (pyDigitsStart rest).map (fun n => -(Int.ofNat n))
  | rest => (pyDigitsStart rest).map Int.ofNat

/-- Embeds `int(self.headers.get('Content-Length', 0))`: an absent header
gives the integer default `0`; a present header value is parsed by `int`. -/
def pyIntOfHeader : Option String → Option Int
  | none => some 0
  | some s => pyIntParse s

/-- Embeds `rfile.read(n)` on an in-memory stream: a negative count reads
the whole stream, otherwise the first `n` bytes (fewer at end of stream). -/
def pyRead (stream : List Nat) (n : Int) : List Nat :=
  if n < 0 then stream else stream.take n.toNat

/-- The Unicode replacement character emitted for undecodable bytes. -/
def replacementChar : Char := Char.ofNat 0xFFFD

/-- Continuation byte range 0x80..0xBF. -/
def utf8Cont (b : Nat) : Bool := 0x80 ≤ b && b ≤ 0xBF

/-- First-continuation range for a three-byte lead (excludes overlong forms
and surrogates, as CPython's strict UTF-8 decoder does). -/
def utf8Cont3 (lead b : Nat) : Bool :=
  if lead == 0xE0 then 0xA0 ≤ b && b ≤ 0xBF
  else if lead == 0xED then 0x80 ≤ b && b ≤ 0x9F
  else utf8Cont b

/-- First-continuation range for a four-byte lead (excludes overlong forms
and code points above 0x10FFFF). -/
def utf8Cont4 (lead b : Nat) : Bool :=
  if lead == 0xF0 then 0x90 ≤ b && b ≤ 0xBF
  else if lead == 0xF4 then 0x80 ≤ b && b ≤ 0x8F
  else utf8Cont b

/-- Fuel-indexed UTF-8 decoder with replacement of maximal invalid
subparts; the fuel only bounds recursion depth and one byte at least is
consumed per step, so fuel equal to the list length is always enough. -/
def utf8DecodeReplaceAux : Nat → List Nat → List Char
  | 0, _ => []
  | _ + 1, [] => []
  | fuel + 1, b :: rest =>
    if b < 0x80 then Char.ofNat b :: utf8DecodeReplaceAux fuel rest
    else if 0xC2 ≤ b && b ≤ 0xDF then
      match rest with
      | [] => [replacementChar]
      | c1 :: rest1 =>
        if utf8Cont c1 then
          Char.ofNat ((b - 0xC0) * 64 + (c1 - 0x80)) :: utf8DecodeReplaceAux fuel rest1
        else replacementChar :: utf8DecodeReplaceAux fuel rest
    else if 0xE0 ≤ b && b ≤ 0xEF then
      match rest with
      | [] => [replacementChar]
      | c1 :: rest1 =>
        if utf8Cont3 b c1 then
          match rest1 with
          | [] => [replacementChar]
          | c2 :: rest2 =>
            if utf8Cont c2 then
              Char.ofNat ((b - 0xE0) * 4096 + (c1 - 0x80) * 64 + (c2 - 0x80)) ::
                utf8DecodeReplaceAux fuel rest2
            else replacementChar :: utf8DecodeReplaceAux fuel rest1
        else replacementChar :: utf8DecodeReplaceAux fuel rest
    else if 0xF0 ≤ b && b ≤ 0xF4 then
      match rest with
      | [] => [replacementChar]
      | c1 :: rest1 =>
        if utf8Cont4 b c1 then
          match rest1 with
          | [] => [replacementChar]
          | c2 :: rest2 =>
            if utf8Cont c2 then
              match rest2 with
              | [] => [replacementChar]
              | c3 :: rest3 =>
                if utf8Cont c3 then
                  Char.ofNat ((b - 0xF0) * 262144 + (c1 - 0x80) * 4096 +
                      (c2 - 0x80) * 64 + (c3 - 0x80)) :: utf8DecodeReplaceAux fuel rest3
                else replacementChar :: utf8DecodeReplaceAux fuel rest2
            else replacementChar :: utf8DecodeReplaceAux fuel rest1
        else replacementChar :: utf8DecodeReplaceAux fuel rest
      else replacementChar :: utf8DecodeReplaceAux fuel rest

/-- Embeds Python `bs.decode('utf-8', errors set to replace)`. -/
def utf8DecodeReplace (bs : List Nat) : String :=
  String.mk (utf8DecodeReplaceAux bs.length bs)

/-! ### Request and response model -/

/-- An incoming HTTP request as the handlers see it.  `query` is the
result of `urllib.parse.parse_qs` on the URL's query string, abstracted
to an association list giving each key its first value; `headers` is the
request header list looked up by `self.headers.get`; `streamBytes` is the
byte stream available on `self.rfile`. -/
structure Request where
  path : String
  query : List (String × String)
  headers : List (String × String)
  streamBytes : List Nat
deriving DecidableEq

/-- The outgoing upstream request built with `urllib.request.Request`,
including the explicitly added headers and the `timeout` handed to
`urllib.request.urlopen`. -/
structure UpstreamReq where
  url : String
  method : String
  reqHeaders : List (String × String)
  data : Option (List Nat)
  timeoutSecs : Nat
deriving DecidableEq

/-- The possible outcomes of `urllib.request.urlopen`: a successful
response (body and optional `Content-Type`), an `HTTPError` (status code,
reason phrase, readable error body), a `URLError` (reason text), or any
other exception (its `str`). -/
inductive UpstreamOutcome where
  | ok (body : List Nat) (contentType : Option String)
  | httpError (code : Nat) (reason : String) (errBody : List Nat)
  | urlError (reason : String)
  | otherError (msg : String)
deriving DecidableEq

/-- What the caller receives as the response payload: either the HTML
error page that `send_error` generates around its message, or raw bytes
written with `wfile.write`. -/
inductive ResponseBody where
  | errorPage (message : String)
  | bytes (data : List Nat)
deriving DecidableEq

/-- A completed HTTP response to the caller: status code, the header
lines in the order they were sent (after `end_headers` ran), and the
payload. -/
structure Response where
  status : Nat
  headers : List (String × String)
  body : ResponseBody
deriving DecidableEq

/-- The two headers that the overridden `end_headers` adds to every
response just before terminating the header block. -/
def endHeadersExtra : List (String × String) :=
  [("Cache-Control", "no-store, no-cache, must-revalidate"), ("Expires", "0")]

/-- Embeds the `end_headers` override: the headers sent so far are
followed by the no-cache additions, then the header block ends. -/
def finalize (hs : List (String × String)) : List (String × String) :=
  hs ++ endHeadersExtra

/-- Embeds `self.send_error(code, message)`: an error response whose
payload is the framework's HTML page around `message`, carrying the
framework's error headers and then the `end_headers` additions. -/
def sendError (code : Nat) (message : String) : Response :=
  { status := code
    headers := finalize [("Content-Type", "text/html;charset=utf-8"), ("Connection", "close")]
    body := ResponseBody.errorPage message }

/-- What one handler invocation produces: either a completed response
(`Except.ok`) or an exception escaping the handler (`Except.error`, with
the exception's description), together with the upstream request the
handler sent, if any. -/
structure HandlerOutput where
  outcome : Except String Response
  upstreamCall : Option UpstreamReq

/-- First value for a key in an association list: the `[0]` of a
`parse_qs` entry, `none` when the key is absent. -/
def getFirst (q : List (String × String)) (k : String) : Option String :=
  (q.find? (fun p => p.fst == k)).map Prod.snd

/-- Embeds `self.headers.get(k)` with no default. -/
def headerGetOpt (hs : List (String × String)) (k : String) : Option String :=
  (hs.find? (fun p => p.fst == k)).map Prod.snd

/-- Embeds `self.headers.get(k, d)` with a string default. -/
def headerGet (hs : List (String × String)) (k d : String) : String :=
  (headerGetOpt hs k).getD d

/-! ### Per-route input extraction, exactly as the handlers read it -/

/-- `params.get('id', [None])[0]` of the GET routes. -/
def qId (r : Request) : Option String := getFirst r.query "id"

/-- `params.get('org', [None])[0]` of the GET routes. -/
def qOrg (r : Request) : Option String := getFirst r.query "org"

/-- `params.get('serverUrl', ['https://dev.azure.com'])[0]`. -/
def qServerUrl (r : Request) : String :=
  (getFirst r.query "serverUrl").getD "https://dev.azure.com"

/-- `self.headers.get('X-ADO-PAT', '')`. -/
def patHeader (r : Request) : String := headerGet r.headers "X-ADO-PAT" ""

/-- `self.headers.get('X-ADO-Org', '')` of the search route. -/
def orgHeader (r : Request) : String := headerGet r.headers "X-ADO-Org" ""

/-- `self.headers.get('X-ADO-Server', 'https://dev.azure.com')`. -/
def serverHeader (r : Request) : String :=
  headerGet r.headers "X-ADO-Server" "https://dev.azure.com"

/-- `self.headers.get('Content-Length')`, before the integer default. -/
def contentLengthHeader (r : Request) : Option String :=
  headerGetOpt r.headers "Content-Length"

/-- The validation test `not avatar_id or not org or not pat` shared by
the avatar and identity-resolve routes. -/
def avatarGuard (r : Request) : Bool :=
  pyFalsy (qId r) || pyFalsy (qOrg r) || patHeader r == ""

/-- The validation test `not pat or not org` of the search route. -/
def searchGuard (r : Request) : Bool :=
  patHeader r == "" || orgHeader r == ""

/-- The 400 message of the two GET proxy routes. -/
def getRoutesMissingMsg : String :=
  "Missing required parameters (id, org) or X-ADO-PAT header"

/-- The 400 message of the search route. -/
def searchMissingMsg : String :=
  "Missing required headers: X-ADO-PAT, X-ADO-Org"

/-- The `Authorization` value built by every route:
`'Basic ' + base64.b64encode((':' + pat).encode()).decode()`. -/
def basicAuthValue (pat : String) : String :=
  "Basic " ++ b64EncodeBytes (strBytes (":" ++ pat))

/-- The avatar upstream URL
`{server_url}/{org}/_api/_common/identityImage?id={avatar_id}`
(the guard has ensured `id` and `org` are present, so `getD` never
supplies its default on the path that uses this). -/
def avatarUrl (r : Request) : String :=
  qServerUrl r ++ "/" ++ (qOrg r).getD "" ++ "/_api/_common/identityImage?id=" ++
    (qId r).getD ""

/-- The identity-resolve upstream URL: trailing slashes are stripped from
the server URL, the identity base moves to the vssps subdomain when the
stripped server URL contains `dev.azure.com`, and the id is
percent-encoded with nothing extra safe. -/
def resolveUrl (r : Request) : String :=
  let server_url := rstripSlash (qServerUrl r)
  let identity_base :=
    if strContains server_url "dev.azure.com" then
      "https://vssps.dev.azure.com/" ++ (qOrg r).getD ""
    else
      server_url ++ "/" ++ (qOrg r).getD ""
  identity_base ++ "/_apis/identities/" ++ pyQuoteNoSafe ((qId r).getD "") ++
    "?api-version=6.0"

/-- The identity-search upstream URL
`{server_url}/{org}/_apis/IdentityPicker/Identities?api-version=5.1-preview.1`
after stripping trailing slashes from the server header. -/
def searchUrl (r : Request) : String :=
  rstripSlash (serverHeader r) ++ "/" ++ orgHeader r ++
    "/_apis/IdentityPicker/Identities?api-version=5.1-preview.1"

/-! ### The three route handlers and the POST dispatcher -/

/-- Embeds `handle_avatar_proxy`.  `upstream` stands for the network: it
maps the constructed `urllib` request to its outcome. -/
def handle_avatar_proxy (upstream : UpstreamReq → UpstreamOutcome) (r : Request) :
    HandlerOutput :=
  if avatarGuard r then
    { outcome := Except.ok (sendError 400 getRoutesMissingMsg), upstreamCall := none }
  else
    let req : UpstreamReq :=
      { url := avatarUrl r, method := "GET"
        reqHeaders := [("Authorization", basicAuthValue (patHeader r))]
        data := none, timeoutSecs := 10 }
    match upstream req with
    | UpstreamOutcome.ok body ct =>
      { outcome := Except.ok
          { status := 200
            headers := finalize
              [("Content-Type", ct.getD "image/png"),
               ("Content-Length", toString body.length),
               ("Cache-Control", "max-age=604800")]
            body := ResponseBody.bytes body }
        upstreamCall := some req }
    | UpstreamOutcome.httpError code reason _ =>
      { outcome := Except.ok (sendError code ("Azure DevOps returned: " ++ reason))
        upstreamCall := some req }
    | UpstreamOutcome.urlError reason =>
      { outcome := Except.ok (sendError 502 ("Failed to connect to Azure DevOps: " ++ reason))
        upstreamCall := some req }
    | UpstreamOutcome.otherError msg =>
      { outcome := Except.ok (sendError 500 ("Proxy error: " ++ msg))
        upstreamCall := some req }

/-- Embeds `handle_identity_resolve_proxy`. -/
def handle_identity_resolve_proxy (upstream : UpstreamReq → UpstreamOutcome)
    (r : Request) : HandlerOutput :=
  if avatarGuard r then
    { outcome := Except.ok (sendError 400 getRoutesMissingMsg), upstreamCall := none }
  else
    let req : UpstreamReq :=
      { url := resolveUrl r, method := "GET"
        reqHeaders := [("Authorization", basicAuthValue (patHeader r))]
        data := none, timeoutSecs := 10 }
    match upstream req with
    | UpstreamOutcome.ok body ct =>
      { outcome := Except.ok
          { status := 200
            headers := finalize
              [("Content-Type", ct.getD "application/json"),
               ("Content-Length", toString body.length)]
            body := ResponseBody.bytes body }
        upstreamCall := some req }
    | UpstreamOutcome.httpError code reason _ =>
      { outcome := Except.ok (sendError code ("Azure DevOps returned: " ++ reason))
        upstreamCall := some req }
    | UpstreamOutcome.urlError reason =>
      { outcome := Except.ok (sendError 502 ("Failed to connect to Azure DevOps: " ++ reason))
        upstreamCall := some req }
    | UpstreamOutcome.otherError msg =>
      { outcome := Except.ok (sendError 500 ("Proxy error: " ++ msg))
        upstreamCall := some req }

/-- The description of the `ValueError` raised by `int()` on a
non-integer `Content-Length` header. -/
def intValueErrorMsg : String :=
  "ValueError: invalid literal for int() with base 10"

/-- Embeds `handle_identity_search_proxy`.  The `int(...)` conversion of
the `Content-Length` header happens after the 400 guard and before the
`try` block; when it fails, the `ValueError` escapes the handler, which
the model records as `Except.error`. -/
def handle_identity_search_proxy (upstream : UpstreamReq → UpstreamOutcome)
    (r : Request) : HandlerOutput :=
  if searchGuard r then
    { outcome := Except.ok (sendError 400 searchMissingMsg), upstreamCall := none }
  else
    match pyIntOfHeader (contentLengthHeader r) with
    | none => { outcome := Except.error intValueErrorMsg, upstreamCall := none }
    | some content_length =>
      let post_body := pyRead r.streamBytes content_length
      let req : UpstreamReq :=
        { url := searchUrl r, method := "POST"
          reqHeaders := [("Authorization", basicAuthValue (patHeader r)),
                         ("Content-Type", "application/json")]
          data := some post_body, timeoutSecs := 10 }
      match upstream req with
      | UpstreamOutcome.ok body ct =>
        { outcome := Except.ok
            { status := 200
              headers := finalize
                [("Content-Type", ct.getD "application/json"),
                 ("Content-Length", toString body.length)]
              body := ResponseBody.bytes body }
          upstreamCall := some req }
      | UpstreamOutcome.httpError code reason errBody =>
        { outcome := Except.ok (sendError code
            ("Azure DevOps returned: " ++ reason ++ " - " ++ utf8DecodeReplace errBody))
          upstreamCall := some req }
      | UpstreamOutcome.urlError reason =>
        { outcome := Except.ok (sendError 502 ("Failed to connect to Azure DevOps: " ++ reason))
          upstreamCall := some req }
      | UpstreamOutcome.otherError msg =>
        { outcome := Except.ok (sendError 500 ("Proxy error: " ++ msg))
          upstreamCall := some req }

/-- Embeds `do_POST`: a path starting with `/identity-search` is proxied,
anything else gets `send_error(404, 'Not Found')`. -/
def do_POST (upstream : UpstreamReq → UpstreamOutcome) (r : Request) : HandlerOutput :=
  if r.path.startsWith "/identity-search" then
    handle_identity_search_proxy upstream r
  else
    { outcome := Except.ok (sendError 404 "Not Found"), upstreamCall := none }

/-! ### Logging -/

/-- Embeds the overridden `log_message`: address, bracketed date, then
the formatted message. -/
def log_message (addr date msg : String) : String :=
  addr ++ " - [" ++ date ++ "] " ++ msg ++ "\n"

/-- Embeds the framework's `log_request`, which every completed response
goes through: it formats only the request line, the status code and the
size token before handing the text to `log_message`. -/
def log_request (addr date requestline : String) (code : Nat) : String :=
  log_message addr date ("\"" ++ requestline ++ "\" " ++ toString code ++ " -")

/-! ### Spec-side reference definitions

These follow the specification's words, to be compared with the
code-derived definitions above. -/

/-- Spec: the authentication header value is `Basic` followed by the
base64 encoding of the colon-prefixed credential (empty username, PAT as
password). -/
def specAuthHeader (pat : String) : String :=
  "Basic " ++ b64EncodeBytes (strBytes (":" ++ pat))

/-- Spec: the avatar upstream URL is
`{serverUrl}/{org}/_api/_common/identityImage?id={id}`. -/
def specAvatarUrl (serverUrl org id : String) : String :=
  serverUrl ++ "/" ++ org ++ "/_api/_common/identityImage?id=" ++ id

/-- Spec: strip any trailing slash from the server URL; when the result
contains `dev.azure.com` the identity base is
`https://vssps.dev.azure.com/{org}`, otherwise `{serverUrl}/{org}`. -/
def specIdentityBase (serverUrl org : String) : String :=
  let stripped := rstripSlash serverUrl
  if strContains stripped "dev.azure.com" then
    "https://vssps.dev.azure.com/" ++ org
  else
    stripped ++ "/" ++ org

/-- Spec: the identity-resolve upstream URL is
`{identityBase}/_apis/identities/{urlEncode(id)}?api-version=6.0` with
the id percent-encoded treating no characters as safe. -/
def specResolveUrl (serverUrl org id : String) : String :=
  specIdentityBase serverUrl org ++ "/_apis/identities/" ++ pyQuoteNoSafe id ++
    "?api-version=6.0"

/-- Spec: the identity-search upstream URL is
`{serverUrl}/{org}/_apis/IdentityPicker/Identities?api-version=5.1-preview.1`
after stripping the trailing slash from the server URL. -/
def specSearchUrl (serverUrl org : String) : String :=
  rstripSlash serverUrl ++ "/" ++ org ++
    "/_apis/IdentityPicker/Identities?api-version=5.1-preview.1"

/-! ### Helper lemmas about the handlers -/

/-- On valid avatar inputs the handler always issues exactly the
constructed GET request, whatever the upstream outcome. -/
theorem avatar_call_eq (u : UpstreamReq → UpstreamOutcome) (r : Request)
    (ha : avatarGuard r = false) :
    (handle_avatar_proxy u r).upstreamCall = some
      { url := avatarUrl r, method := "GET"
        reqHeaders := [("Authorization", basicAuthValue (patHeader r))]
        data := none, timeoutSecs := 10 } := by
  unfold handle_avatar_proxy
  rw [ha]
  simp only [Bool.false_eq_true, if_false]
  split <;> rfl

/-- On valid identity-resolve inputs the handler always issues exactly
the constructed GET request. -/
theorem resolve_call_eq (u : UpstreamReq → UpstreamOutcome) (r : Request)
    (ha : avatarGuard r = false) :
    (handle_identity_resolve_proxy u r).upstreamCall = some
      { url := resolveUrl r, method := "GET"
        reqHeaders := [("Authorization", basicAuthValue (patHeader r))]
        data := none, timeoutSecs := 10 } := by
  unfold handle_identity_resolve_proxy
  rw [ha]
  simp only [Bool.false_eq_true, if_false]
  split <;> rfl

/-- On valid identity-search headers and a parseable body length the
handler always issues exactly the constructed POST request. -/
theorem search_call_eq (u : UpstreamReq → UpstreamOutcome) (r : Request)
    (hs : searchGuard r = false) (n : Int)
    (hcl : pyIntOfHeader (contentLengthHeader r) = some n) :
    (handle_identity_search_proxy u r).upstreamCall = some
      { url := searchUrl r, method := "POST"
        reqHeaders := [("Authorization", basicAuthValue (patHeader r)),
                       ("Content-Type", "application/json")]
        data := some (pyRead r.streamBytes n), timeoutSecs := 10 } := by
  unfold handle_identity_search_proxy
  rw [hs, hcl]
  simp only [Bool.false_eq_true, if_false]
  split <;> rfl

/-! ### Claim C1 -/

/-- C1: on each of the three proxy routes, a missing or empty required
input (query `id` or `org`, or the `X-ADO-PAT` header, on the two GET
routes; the `X-ADO-PAT` or `X-ADO-Org` header on the search route) makes
the handler respond HTTP 400 with the route's fixed message and perform
no upstream call. -/
theorem C1_missing_inputs_400_no_upstream (u : UpstreamReq → UpstreamOutcome)
    (r : Request) :
    (avatarGuard r = true →
      handle_avatar_proxy u r =
        { outcome := Except.ok (sendError 400 getRoutesMissingMsg), upstreamCall := none } ∧
      handle_identity_resolve_proxy u r =
        { outcome := Except.ok (sendError 400 getRoutesMissingMsg), upstreamCall := none }) ∧
    (searchGuard r = true →
      handle_identity_search_proxy u r =
        { outcome := Except.ok (sendError 400 searchMissingMsg), upstreamCall := none }) := by
  refine ⟨fun h => ⟨?_, ?_⟩, fun h => ?_⟩
  · unfold handle_avatar_proxy
    rw [h, if_pos rfl]
  · unfold handle_identity_resolve_proxy
    rw [h, if_pos rfl]
  · unfold handle_identity_search_proxy
    rw [h, if_pos rfl]

/-- A request with no query parameters and no headers at all. -/
def emptyReq : Request :=
  { path := "/identity-search", query := [], headers := [], streamBytes := [] }

/-- Witness for C1: the completely empty request trips the guard on all
three routes. -/
theorem C1_witness :
    (handle_avatar_proxy (fun _ => UpstreamOutcome.urlError "unused") emptyReq =
      { outcome := Except.ok (sendError 400 getRoutesMissingMsg), upstreamCall := none }) ∧
    (handle_identity_search_proxy (fun _ => UpstreamOutcome.urlError "unused") emptyReq =
      { outcome := Except.ok (sendError 400 searchMissingMsg), upstreamCall := none }) :=
  ⟨((C1_missing_inputs_400_no_upstream _ emptyReq).1 (by decide)).1,
   (C1_missing_inputs_400_no_upstream _ emptyReq).2 (by decide)⟩

/-! ### Claim C2 -/

/-- C2: every route builds the upstream `Authorization` header as
`Basic ` followed by the base64 of `:` prefixed to the PAT, and the
upstream URL and header are fixed functions of the inputs; in particular
the credential `abc` yields `Basic OmFiYw==`. -/
theorem C2_basic_auth_and_url (u : UpstreamReq → UpstreamOutcome) (r : Request)
    (ha : avatarGuard r = false) (hs : searchGuard r = false)
    (n : Int) (hcl : pyIntOfHeader (contentLengthHeader r) = some n) :
    (handle_avatar_proxy u r).upstreamCall = some
      { url := specAvatarUrl (qServerUrl r) ((qOrg r).getD "") ((qId r).getD "")
        method := "GET"
        reqHeaders := [("Authorization", specAuthHeader (patHeader r))]
        data := none, timeoutSecs := 10 } ∧
    (handle_identity_resolve_proxy u r).upstreamCall = some
      { url := specResolveUrl (qServerUrl r) ((qOrg r).getD "") ((qId r).getD "")
        method := "GET"
        reqHeaders := [("Authorization", specAuthHeader (patHeader r))]
        data := none, timeoutSecs := 10 } ∧
    (handle_identity_search_proxy u r).upstreamCall = some
      { url := specSearchUrl (serverHeader r) (orgHeader r)
        method := "POST"
        reqHeaders := [("Authorization", specAuthHeader (patHeader r)),
                       ("Content-Type", "application/json")]
        data := some (pyRead r.streamBytes n), timeoutSecs := 10 } ∧
    specAuthHeader "abc" = "Basic OmFiYw==" :=
  ⟨avatar_call_eq u r ha, resolve_call_eq u r ha, search_call_eq u r hs n hcl, by decide⟩

/-- A fully valid request for all three routes at once. -/
def validReq : Request :=
  { path := "/identity-search"
    query := [("id", "user@example.com"), ("org", "contoso")]
    headers := [("X-ADO-PAT", "abc"), ("X-ADO-Org", "contoso"), ("Content-Length", "2")]
    streamBytes := [0x7B, 0x7D] }

/-- Witness for C2: on the concrete valid request the three constructed
upstream requests are exactly these. -/
theorem C2_witness :
    (handle_avatar_proxy (fun _ => UpstreamOutcome.urlError "unused") validReq).upstreamCall =
      some
        { url := "https://dev.azure.com/contoso/_api/_common/identityImage?id=user@example.com"
          method := "GET"
          reqHeaders := [("Authorization", "Basic OmFiYw==")]
          data := none, timeoutSecs := 10 } ∧
    (handle_identity_resolve_proxy (fun _ => UpstreamOutcome.urlError "unused") validReq).upstreamCall =
      some
        { url := "https://vssps.dev.azure.com/contoso/_apis/identities/user%40example.com?api-version=6.0"
          method := "GET"
          reqHeaders := [("Authorization", "Basic OmFiYw==")]
          data := none, timeoutSecs := 10 } ∧
    (handle_identity_search_proxy (fun _ => UpstreamOutcome.urlError "unused") validReq).upstreamCall =
      some
        { url := "https://dev.azure.com/contoso/_apis/IdentityPicker/Identities?api-version=5.1-preview.1"
          method := "POST"
          reqHeaders := [("Authorization", "Basic OmFiYw=="), ("Content-Type", "application/json")]
          data := some [0x7B, 0x7D], timeoutSecs := 10 } := by
  have h := C2_basic_auth_and_url (fun _ => UpstreamOutcome.urlError "unused") validReq
    (by decide) (by decide) 2 (by decide)
  refine ⟨?_, ?_, ?_⟩
  · rw [h.1]; rfl
  · rw [h.2.1]; rfl
  · rw [h.2.2.1]; rfl

/-! ### Claim C4 -/

/-- C4: the identity-resolve upstream URL follows the spec's routing
rule: strip trailing slashes, route to the vssps subdomain exactly when
the stripped server URL contains `dev.azure.com`, and percent-encode the
id with no safe characters, slash included; the spec's two routing
examples hold. -/
theorem C4_resolve_url_routing (u : UpstreamReq → UpstreamOutcome) (r : Request)
    (ha : avatarGuard r = false) :
    (handle_identity_resolve_proxy u r).upstreamCall = some
      { url := specResolveUrl (qServerUrl r) ((qOrg r).getD "") ((qId r).getD "")
        method := "GET"
        reqHeaders := [("Authorization", basicAuthValue (patHeader r))]
        data := none, timeoutSecs := 10 } ∧
    specIdentityBase "https://dev.azure.com" "contoso" =
      "https://vssps.dev.azure.com/contoso" ∧
    specIdentityBase "https://tfs.internal.example.com/tfs/" "contoso" =
      "https://tfs.internal.example.com/tfs/contoso" ∧
    pyQuoteNoSafe "a/b" = "a%2Fb" :=
  ⟨resolve_call_eq u r ha, by decide, by decide, by decide⟩

/-- Witness for C4: concrete resolve request against an on-premises
server URL with a trailing slash and a slash inside the identity id. -/
def onPremReq : Request :=
  { path := ""
    query := [("id", "DOM/u"), ("org", "contoso"),
              ("serverUrl", "https://tfs.internal.example.com/tfs/")]
    headers := [("X-ADO-PAT", "abc")]
    streamBytes := [] }

/-- Witness for C4: the on-premises request resolves to the same host
with the slash of the id percent-encoded. -/
theorem C4_witness :
    (handle_identity_resolve_proxy (fun _ => UpstreamOutcome.urlError "unused") onPremReq).upstreamCall =
      some
        { url := "https://tfs.internal.example.com/tfs/contoso/_apis/identities/DOM%2Fu?api-version=6.0"
          method := "GET"
          reqHeaders := [("Authorization", "Basic OmFiYw==")]
          data := none, timeoutSecs := 10 } := by
  have h := C4_resolve_url_routing (fun _ => UpstreamOutcome.urlError "unused") onPremReq (by decide)
  rw [h.1]; rfl

/-! ### Claim C5 -/

/-- C5: on valid inputs, upstream failures map to caller responses in
three tiers on every route — an upstream HTTP error is relayed with the
same status and a message embedding the reason phrase, a connection
failure yields 502, anything else yields 500 with the failure's string —
and on the search route alone the upstream error body, decoded with
replacement of undecodable bytes, is appended to the relayed message. -/
theorem C5_error_tiers (r : Request)
    (ha : avatarGuard r = false) (hs : searchGuard r = false)
    (n : Int) (hcl : pyIntOfHeader (contentLengthHeader r) = some n)
    (code : Nat) (reason msg : String) (errBody : List Nat) :
    ((handle_avatar_proxy (fun _ => UpstreamOutcome.httpError code reason errBody) r).outcome =
      Except.ok (sendError code ("Azure DevOps returned: " ++ reason))) ∧
    ((handle_avatar_proxy (fun _ => UpstreamOutcome.urlError reason) r).outcome =
      Except.ok (sendError 502 ("Failed to connect to Azure DevOps: " ++ reason))) ∧
    ((handle_avatar_proxy (fun _ => UpstreamOutcome.otherError msg) r).outcome =
      Except.ok (sendError 500 ("Proxy error: " ++ msg))) ∧
    ((handle_identity_resolve_proxy (fun _ => UpstreamOutcome.httpError code reason errBody) r).outcome =
      Except.ok (sendError code ("Azure DevOps returned: " ++ reason))) ∧
    ((handle_identity_resolve_proxy (fun _ => UpstreamOutcome.urlError reason) r).outcome =
      Except.ok (sendError 502 ("Failed to connect to Azure DevOps: " ++ reason))) ∧
    ((handle_identity_resolve_proxy (fun _ => UpstreamOutcome.otherError msg) r).outcome =
      Except.ok (sendError 500 ("Proxy error: " ++ msg))) ∧
    ((handle_identity_search_proxy (fun _ => UpstreamOutcome.httpError code reason errBody) r).outcome =
      Except.ok (sendError code
        ("Azure DevOps returned: " ++ reason ++ " - " ++ utf8DecodeReplace errBody))) ∧
    ((handle_identity_search_proxy (fun _ => UpstreamOutcome.urlError reason) r).outcome =
      Except.ok (sendError 502 ("Failed to connect to Azure DevOps: " ++ reason))) ∧
    ((handle_identity_search_proxy (fun _ => UpstreamOutcome.otherError msg) r).outcome =
      Except.ok (sendError 500 ("Proxy error: " ++ msg))) := by
  refine ⟨?_, ?_, ?_, ?_, ?_, ?_, ?_, ?_, ?_⟩
  · unfold handle_avatar_proxy; rw [ha]; rfl
  · unfold handle_avatar_proxy; rw [ha]; rfl
  · unfold handle_avatar_proxy; rw [ha]; rfl
  · unfold handle_identity_resolve_proxy; rw [ha]; rfl
  · unfold handle_identity_resolve_proxy; rw [ha]; rfl
  · unfold handle_identity_resolve_proxy; rw [ha]; rfl
  · unfold handle_identity_search_proxy; rw [hs, hcl]; rfl
  · unfold handle_identity_search_proxy; rw [hs, hcl]; rfl
  · unfold handle_identity_search_proxy; rw [hs, hcl]; rfl

/-- Witness for C5: a concrete upstream 404 with reason `Not Found` and
the ASCII error body `denied` relayed through the routes. -/
theorem C5_witness :
    ((handle_avatar_proxy
        (fun _ => UpstreamOutcome.httpError 404 "Not Found" [100, 101, 110, 105, 101, 100])
        validReq).outcome =
      Except.ok (sendError 404 "Azure DevOps returned: Not Found")) ∧
    ((handle_identity_search_proxy
        (fun _ => UpstreamOutcome.httpError 404 "Not Found" [100, 101, 110, 105, 101, 100])
        validReq).outcome =
      Except.ok (sendError 404 "Azure DevOps returned: Not Found - denied")) ∧
    ((handle_identity_resolve_proxy (fun _ => UpstreamOutcome.urlError "no DNS") validReq).outcome =
      Except.ok (sendError 502 "Failed to connect to Azure DevOps: no DNS")) := by
  have h := C5_error_tiers validReq (by decide) (by decide) 2 (by decide)
    404 "Not Found" "unused" [100, 101, 110, 105, 101, 100]
  have h2 := C5_error_tiers validReq (by decide) (by decide) 2 (by decide)
    404 "no DNS" "unused" [100, 101, 110, 105, 101, 100]
  refine ⟨?_, ?_, ?_⟩
  · rw [h.1]; rfl
  · rw [h.2.2.2.2.2.2.1]; rfl
  · rw [h2.2.2.2.2.1]; rfl

/-! ### Claim C7 -/

/-- C7: a POST whose path does not start with `/identity-search` gets an
HTTP 404 whose error payload is the fixed message `Not Found`, with no
upstream call. -/
theorem C7_post_other_404 (u : UpstreamReq → UpstreamOutcome) (r : Request)
    (h : r.path.startsWith "/identity-search" = false) :
    do_POST u r =
      { outcome := Except.ok (sendError 404 "Not Found"), upstreamCall := none } := by
  unfold do_POST
  rw [h]
  rfl

/-- Witness for C7: a concrete POST to `/avatar`. -/
theorem C7_witness :
    do_POST (fun _ => UpstreamOutcome.ok [] none)
      { path := "/avatar", query := [], headers := [], streamBytes := [] } =
      { outcome := Except.ok (sendError 404 "Not Found"), upstreamCall := none } :=
  C7_post_other_404 _ _ (by decide)

/-! ### Claim C8 -/

/-- C8: on valid search headers, the forwarded POST data is exactly the
bytes read from the stream as dictated by the parsed `Content-Length`,
untouched; when that length equals the stream length the body is
forwarded byte-for-byte. -/
theorem C8_body_forwarded (u : UpstreamReq → UpstreamOutcome) (r : Request)
    (hs : searchGuard r = false) (n : Int)
    (hcl : pyIntOfHeader (contentLengthHeader r) = some n) :
    ((handle_identity_search_proxy u r).upstreamCall = some
      { url := searchUrl r, method := "POST"
        reqHeaders := [("Authorization", basicAuthValue (patHeader r)),
                       ("Content-Type", "application/json")]
        data := some (pyRead r.streamBytes n), timeoutSecs := 10 }) ∧
    (n = Int.ofNat r.streamBytes.length → pyRead r.streamBytes n = r.streamBytes) := by
  refine ⟨search_call_eq u r hs n hcl, fun hn => ?_⟩
  subst hn
  simp [pyRead]

/-- Witness for C8: the two-byte JSON body `\x7b\x7d` with
`Content-Length: 2` is forwarded exactly. -/
theorem C8_witness :
    (handle_identity_search_proxy (fun _ => UpstreamOutcome.ok [] none) validReq).upstreamCall =
      some
        { url := "https://dev.azure.com/contoso/_apis/IdentityPicker/Identities?api-version=5.1-preview.1"
          method := "POST"
          reqHeaders := [("Authorization", "Basic OmFiYw=="), ("Content-Type", "application/json")]
          data := some [0x7B, 0x7D], timeoutSecs := 10 } := by
  have h := C8_body_forwarded (fun _ => UpstreamOutcome.ok [] none) validReq
    (by decide) 2 (by decide)
  rw [h.1]; rfl

/-! ### Claim C10 -/

/-- C10: on valid search headers but no `Content-Length` header, the
handler takes the length to be zero, reads an empty body, and still
performs the upstream POST with empty payload instead of erroring. -/
theorem C10_absent_content_length (u : UpstreamReq → UpstreamOutcome) (r : Request)
    (hs : searchGuard r = false) (hcl : contentLengthHeader r = none) :
    ((handle_identity_search_proxy u r).upstreamCall = some
      { url := searchUrl r, method := "POST"
        reqHeaders := [("Authorization", basicAuthValue (patHeader r)),
                       ("Content-Type", "application/json")]
        data := some [], timeoutSecs := 10 }) ∧
    (∀ body ct, (handle_identity_search_proxy (fun _ => UpstreamOutcome.ok body ct) r).outcome =
      Except.ok
        { status := 200
          headers := finalize [("Content-Type", ct.getD "application/json"),
                               ("Content-Length", toString body.length)]
          body := ResponseBody.bytes body }) := by
  constructor
  · exact search_call_eq u r hs 0 (by rw [hcl]; rfl)
  · intro body ct
    unfold handle_identity_search_proxy
    rw [hs, hcl]
    rfl

/-- A search request with valid headers, no `Content-Length`, and bytes
still sitting unread on the stream. -/
def noLenReq : Request :=
  { path := "/identity-search", query := []
    headers := [("X-ADO-PAT", "abc"), ("X-ADO-Org", "contoso")]
    streamBytes := [1, 2, 3] }

/-- Witness for C10: with no `Content-Length`, the upstream POST happens
with an empty payload even though the stream holds bytes. -/
theorem C10_witness :
    (handle_identity_search_proxy (fun _ => UpstreamOutcome.ok [] none) noLenReq).upstreamCall =
      some
        { url := "https://dev.azure.com/contoso/_apis/IdentityPicker/Identities?api-version=5.1-preview.1"
          method := "POST"
          reqHeaders := [("Authorization", "Basic OmFiYw=="), ("Content-Type", "application/json")]
          data := some [], timeoutSecs := 10 } := by
  have h := C10_absent_content_length (fun _ => UpstreamOutcome.ok [] none) noLenReq
    (by decide) (by decide)
  rw [h.1]; rfl

/-! ### Claim C6 -/

/-- Every response a handler completes carries the `end_headers`
additions as its final header lines. -/
theorem headers_suffix_avatar (u : UpstreamReq → UpstreamOutcome) (r : Request)
    (resp : Response) (h : (handle_avatar_proxy u r).outcome = Except.ok resp) :
    ∃ pre, resp.headers = pre ++ endHeadersExtra := by
  unfold handle_avatar_proxy at h
  split at h
  · exact ⟨_, by simp only [Except.ok.injEq] at h; rw [← h]; rfl⟩
  · dsimp only [] at h
    split at h <;> exact ⟨_, by simp only [Except.ok.injEq] at h; rw [← h]; rfl⟩

/-- The identity-resolve analogue of `headers_suffix_avatar`. -/
theorem headers_suffix_resolve (u : UpstreamReq → UpstreamOutcome) (r : Request)
    (resp : Response) (h : (handle_identity_resolve_proxy u r).outcome = Except.ok resp) :
    ∃ pre, resp.headers = pre ++ endHeadersExtra := by
  unfold handle_identity_resolve_proxy at h
  split at h
  · exact ⟨_, by simp only [Except.ok.injEq] at h; rw [← h]; rfl⟩
  · dsimp only [] at h
    split at h <;> exact ⟨_, by simp only [Except.ok.injEq] at h; rw [← h]; rfl⟩

/-- The identity-search analogue of `headers_suffix_avatar`. -/
theorem headers_suffix_search (u : UpstreamReq → UpstreamOutcome) (r : Request)
    (resp : Response) (h : (handle_identity_search_proxy u r).outcome = Except.ok resp) :
    ∃ pre, resp.headers = pre ++ endHeadersExtra := by
  unfold handle_identity_search_proxy at h
  split at h
  · exact ⟨_, by simp only [Except.ok.injEq] at h; rw [← h]; rfl⟩
  · split at h
    · exact absurd h (by simp)
    · dsimp only [] at h
      split at h <;> exact ⟨_, by simp only [Except.ok.injEq] at h; rw [← h]; rfl⟩

/-- The `do_POST` analogue of `headers_suffix_avatar`. -/
theorem headers_suffix_post (u : UpstreamReq → UpstreamOutcome) (r : Request)
    (resp : Response) (h : (do_POST u r).outcome = Except.ok resp) :
    ∃ pre, resp.headers = pre ++ endHeadersExtra := by
  unfold do_POST at h
  split at h
  · exact headers_suffix_search u r resp h
  · exact ⟨_, by simp only [Except.ok.injEq] at h; rw [← h]; rfl⟩

/-- C6 as amended: every completed response of the modelled server ends
its header list with the two `end_headers` additions
(`Cache-Control: no-store, no-cache, must-revalidate` and `Expires: 0`),
and a successful avatar response also carries the route-level
`Cache-Control: max-age=604800`, so both `Cache-Control` headers are
present on it simultaneously. -/
theorem C6_nocache_headers_amended (u : UpstreamReq → UpstreamOutcome) (r : Request) :
    (∀ resp : Response,
      ((handle_avatar_proxy u r).outcome = Except.ok resp ∨
       (handle_identity_resolve_proxy u r).outcome = Except.ok resp ∨
       (handle_identity_search_proxy u r).outcome = Except.ok resp ∨
       (do_POST u r).outcome = Except.ok resp) →
      ∃ pre, resp.headers = pre ++ endHeadersExtra) ∧
    (avatarGuard r = false → ∀ (body : List Nat) (ct : Option String) (resp : Response),
      (handle_avatar_proxy (fun _ => UpstreamOutcome.ok body ct) r).outcome = Except.ok resp →
      ("Cache-Control", "max-age=604800") ∈ resp.headers ∧
      ("Cache-Control", "no-store, no-cache, must-revalidate") ∈ resp.headers) := by
  constructor
  · intro resp h
    rcases h with h | h | h | h
    · exact headers_suffix_avatar u r resp h
    · exact headers_suffix_resolve u r resp h
    · exact headers_suffix_search u r resp h
    · exact headers_suffix_post u r resp h
  · intro ha body ct resp h
    unfold handle_avatar_proxy at h
    rw [ha] at h
    simp only [Bool.false_eq_true, if_false, Except.ok.injEq] at h
    rw [← h]
    constructor <;> simp [finalize, endHeadersExtra]

/-- Counterexample for C6 as stated: the final step before completion
adds exactly two headers, not three — shown on the concrete 404 response
of an unrecognized POST, whose full header list is these four lines. -/
theorem C6_counterexample :
    endHeadersExtra.length = 2 ∧
    ¬ endHeadersExtra.length = 3 ∧
    (do_POST (fun _ => UpstreamOutcome.ok [] none)
        { path := "/nope", query := [], headers := [], streamBytes := [] }).outcome =
      Except.ok (sendError 404 "Not Found") ∧
    (sendError 404 "Not Found").headers =
      [("Content-Type", "text/html;charset=utf-8"), ("Connection", "close"),
       ("Cache-Control", "no-store, no-cache, must-revalidate"), ("Expires", "0")] :=
  ⟨rfl, by decide, rfl, rfl⟩

/-- Witness for C6: the amended theorem applied to the concrete avatar
request `validReq` with a one-byte PNG success upstream. -/
theorem C6_witness :
    ("Cache-Control", "max-age=604800") ∈
      (finalize [("Content-Type", "image/png"), ("Content-Length", "1"),
                 ("Cache-Control", "max-age=604800")] : List (String × String)) ∧
    ("Cache-Control", "no-store, no-cache, must-revalidate") ∈
      (finalize [("Content-Type", "image/png"), ("Content-Length", "1"),
                 ("Cache-Control", "max-age=604800")] : List (String × String)) :=
  (C6_nocache_headers_amended (fun _ => UpstreamOutcome.ok [137] none) validReq).2
    (by decide) [137] none
    { status := 200
      headers := finalize [("Content-Type", "image/png"), ("Content-Length", "1"),
                           ("Cache-Control", "max-age=604800")]
      body := ResponseBody.bytes [137] }
    rfl

/-! ### Claim C9 -/

/-- C9 as amended: the avatar and identity-resolve handlers complete a
response on every input whatever the upstream does, and the
identity-search handler does so whenever its `Content-Length` header
(taken as `0` when absent) parses as an integer; a non-integer
`Content-Length` instead raises before the guarded region and escapes
the search handler without a completed response. -/
theorem C9_failures_contained_amended (u : UpstreamReq → UpstreamOutcome) (r : Request) :
    (∃ resp, (handle_avatar_proxy u r).outcome = Except.ok resp) ∧
    (∃ resp, (handle_identity_resolve_proxy u r).outcome = Except.ok resp) ∧
    ((pyIntOfHeader (contentLengthHeader r)).isSome = true →
      ∃ resp, (handle_identity_search_proxy u r).outcome = Except.ok resp) ∧
    (searchGuard r = false → pyIntOfHeader (contentLengthHeader r) = none →
      (handle_identity_search_proxy u r).outcome = Except.error intValueErrorMsg) := by
  refine ⟨?_, ?_, fun hcl => ?_, fun hg hcl => ?_⟩
  · unfold handle_avatar_proxy
    split
    · exact ⟨_, rfl⟩
    · dsimp only []
      split <;> exact ⟨_, rfl⟩
  · unfold handle_identity_resolve_proxy
    split
    · exact ⟨_, rfl⟩
    · dsimp only []
      split <;> exact ⟨_, rfl⟩
  · unfold handle_identity_search_proxy
    split
    · exact ⟨_, rfl⟩
    · obtain ⟨n, hn⟩ := Option.isSome_iff_exists.mp hcl
      rw [hn]
      dsimp only []
      split <;> exact ⟨_, rfl⟩
  · unfold handle_identity_search_proxy
    rw [hg, hcl]
    rfl

/-- A search request whose `Content-Length` header is not an integer. -/
def badLenReq : Request :=
  { path := "/identity-search", query := []
    headers := [("X-ADO-PAT", "p"), ("X-ADO-Org", "o"), ("Content-Length", "abc")]
    streamBytes := [] }

/-- Counterexample for C9 as stated: on `badLenReq` the `int()`
conversion of `Content-Length` fails outside the `try` block, the
failure escapes the search handler, and no response is completed. -/
theorem C9_counterexample :
    (handle_identity_search_proxy (fun _ => UpstreamOutcome.ok [] none) badLenReq).outcome =
      Except.error intValueErrorMsg ∧
    (handle_identity_search_proxy (fun _ => UpstreamOutcome.ok [] none) badLenReq).upstreamCall =
      none :=
  ⟨rfl, rfl⟩

/-- Witness for C9: the amended theorem instantiated on `validReq` with
an always-failing upstream still completes a response on all routes. -/
theorem C9_witness :
    (∃ resp, (handle_avatar_proxy (fun _ => UpstreamOutcome.otherError "boom") validReq).outcome =
      Except.ok resp) ∧
    (∃ resp, (handle_identity_search_proxy (fun _ => UpstreamOutcome.otherError "boom") validReq).outcome =
      Except.ok resp) :=
  ⟨(C9_failures_contained_amended (fun _ => UpstreamOutcome.otherError "boom") validReq).1,
   (C9_failures_contained_amended (fun _ => UpstreamOutcome.otherError "boom") validReq).2.2.1
     (by decide)⟩

/-! ### Claim C3 -/

/-- A request whose header list starts with the caller's PAT header,
leaving every other input free. -/
def withPat (pat path : String) (q hs : List (String × String)) (stream : List Nat) :
    Request :=
  { path := path, query := q, headers := ("X-ADO-PAT", pat) :: hs, streamBytes := stream }

/-- C3: the credential never reaches the caller-visible response or the
log.  Stated as noninterference: with the upstream modelled as an oracle
whose answer does not depend on the request it is given, changing the
supplied PAT (between any two nonempty values) changes neither the
outcome of any route nor the logged line, while the PAT reaches the
upstream request only as the freshly constructed `Authorization` header,
which is a pure function of that request's PAT. -/
theorem C3_credential_confinement (pat1 pat2 : String) (h1 : pat1 ≠ "") (h2 : pat2 ≠ "")
    (path : String) (q hs : List (String × String)) (stream : List Nat)
    (o : UpstreamOutcome) (addr date reqline : String) :
    ((handle_avatar_proxy (fun _ => o) (withPat pat1 path q hs stream)).outcome =
      (handle_avatar_proxy (fun _ => o) (withPat pat2 path q hs stream)).outcome) ∧
    ((handle_identity_resolve_proxy (fun _ => o) (withPat pat1 path q hs stream)).outcome =
      (handle_identity_resolve_proxy (fun _ => o) (withPat pat2 path q hs stream)).outcome) ∧
    ((handle_identity_search_proxy (fun _ => o) (withPat pat1 path q hs stream)).outcome =
      (handle_identity_search_proxy (fun _ => o) (withPat pat2 path q hs stream)).outcome) ∧
    (∀ resp1 resp2,
      (handle_avatar_proxy (fun _ => o) (withPat pat1 path q hs stream)).outcome =
        Except.ok resp1 →
      (handle_avatar_proxy (fun _ => o) (withPat pat2 path q hs stream)).outcome =
        Except.ok resp2 →
      log_request addr date reqline resp1.status =
        log_request addr date reqline resp2.status) ∧
    (∀ c, (handle_avatar_proxy (fun _ => o) (withPat pat1 path q hs stream)).upstreamCall =
        some c →
      c.reqHeaders = [("Authorization", basicAuthValue pat1)]) ∧
    (∀ c, (handle_identity_resolve_proxy (fun _ => o) (withPat pat1 path q hs stream)).upstreamCall =
        some c →
      c.reqHeaders = [("Authorization", basicAuthValue pat1)]) ∧
    (∀ c, (handle_identity_search_proxy (fun _ => o) (withPat pat1 path q hs stream)).upstreamCall =
        some c →
      c.reqHeaders = [("Authorization", basicAuthValue pat1),
                      ("Content-Type", "application/json")]) := by
  have ep1 : patHeader (withPat pat1 path q hs stream) = pat1 := rfl
  have ep2 : patHeader (withPat pat2 path q hs stream) = pat2 := rfl
  have e1 : (pat1 == "") = false := by simp [h1]
  have e2 : (pat2 == "") = false := by simp [h2]
  have eo : orgHeader (withPat pat1 path q hs stream) =
      orgHeader (withPat pat2 path q hs stream) := rfl
  have ecl : contentLengthHeader (withPat pat1 path q hs stream) =
      contentLengthHeader (withPat pat2 path q hs stream) := rfl
  have ga12 : avatarGuard (withPat pat1 path q hs stream) =
      avatarGuard (withPat pat2 path q hs stream) := by
    unfold avatarGuard
    rw [ep1, ep2, e1, e2]
    rfl
  have sg12 : searchGuard (withPat pat1 path q hs stream) =
      searchGuard (withPat pat2 path q hs stream) := by
    unfold searchGuard
    rw [ep1, ep2, e1, e2, eo]
  have avaOut : (handle_avatar_proxy (fun _ => o) (withPat pat1 path q hs stream)).outcome =
      (handle_avatar_proxy (fun _ => o) (withPat pat2 path q hs stream)).outcome := by
    unfold handle_avatar_proxy
    cases hg : avatarGuard (withPat pat1 path q hs stream) with
    | true =>
      rw [ga12.symm.trans hg]
      rfl
    | false =>
      rw [ga12.symm.trans hg]
      cases o <;> rfl
  have resOut : (handle_identity_resolve_proxy (fun _ => o) (withPat pat1 path q hs stream)).outcome =
      (handle_identity_resolve_proxy (fun _ => o) (withPat pat2 path q hs stream)).outcome := by
    unfold handle_identity_resolve_proxy
    cases hg : avatarGuard (withPat pat1 path q hs stream) with
    | true =>
      rw [ga12.symm.trans hg]
      rfl
    | false =>
      rw [ga12.symm.trans hg]
      cases o <;> rfl
  have seaOut : (handle_identity_search_proxy (fun _ => o) (withPat pat1 path q hs stream)).outcome =
      (handle_identity_search_proxy (fun _ => o) (withPat pat2 path q hs stream)).outcome := by
    unfold handle_identity_search_proxy
    cases hg : searchGuard (withPat pat1 path q hs stream) with
    | true =>
      rw [sg12.symm.trans hg]
      rfl
    | false =>
      rw [sg12.symm.trans hg, ecl]
      cases hcl : pyIntOfHeader (contentLengthHeader (withPat pat2 path q hs stream)) with
      | none => rfl
      | some n => cases o <;> rfl
  refine ⟨avaOut, resOut, seaOut, ?_, ?_, ?_, ?_⟩
  · intro resp1 resp2 hr1 hr2
    have h := hr1.symm.trans (avaOut.trans hr2)
    injection h with h
    rw [h]
  · intro c hc
    cases hg : avatarGuard (withPat pat1 path q hs stream) with
    | true =>
      unfold handle_avatar_proxy at hc
      rw [hg] at hc
      exact absurd hc (by simp)
    | false =>
      rw [avatar_call_eq _ _ hg] at hc
      injection hc with hc
      rw [← hc]
      rfl
  · intro c hc
    cases hg : avatarGuard (withPat pat1 path q hs stream) with
    | true =>
      unfold handle_identity_resolve_proxy at hc
      rw [hg] at hc
      exact absurd hc (by simp)
    | false =>
      rw [resolve_call_eq _ _ hg] at hc
      injection hc with hc
      rw [← hc]
      rfl
  · intro c hc
    cases hg : searchGuard (withPat pat1 path q hs stream) with
    | true =>
      unfold handle_identity_search_proxy at hc
      rw [hg] at hc
      exact absurd hc (by simp)
    | false =>
      cases hcl : pyIntOfHeader (contentLengthHeader (withPat pat1 path q hs stream)) with
      | none =>
        unfold handle_identity_search_proxy at hc
        rw [hg, hcl] at hc
        exact absurd hc (by simp)
      | some n =>
        rw [search_call_eq _ _ hg n hcl] at hc
        injection hc with hc
        rw [← hc]
        rfl

/-- Witness for C3: two concrete distinct credentials on identical valid
requests give identical avatar outcomes under a fixed upstream answer. -/
theorem C3_witness :
    (handle_avatar_proxy (fun _ => UpstreamOutcome.ok [137] none)
        (withPat "secret-one" "/avatar" [("id", "i"), ("org", "o")]
          [("X-ADO-Org", "o"), ("Content-Length", "0")] [])).outcome =
    (handle_avatar_proxy (fun _ => UpstreamOutcome.ok [137] none)
        (withPat "secret-two" "/avatar" [("id", "i"), ("org", "o")]
          [("X-ADO-Org", "o"), ("Content-Length", "0")] [])).outcome :=
  (C3_credential_confinement "secret-one" "secret-two" (by decide) (by decide)
    "/avatar" [("id", "i"), ("org", "o")] [("X-ADO-Org", "o"), ("Content-Length", "0")]
    [] (UpstreamOutcome.ok [137] none) "127.0.0.1" "01/Jan/2026 00:00:00"
    "GET /avatar HTTP/1.1").1

end AdoServer
